import Mathlib

/-!
Shallow embedding of the v6-smart-parking backend services
(reservation engine, webhook ingestion, downlink command queue)
for checking the natural-language specification against the code.

Conventions:
- UUIDs are modelled as `Nat` identifiers, datetimes as `Int` epoch seconds.
- Each database table is a Lean list of row structures; each service method
  becomes a pure function from the database state (plus a `now` timestamp,
  standing for `datetime.utcnow()`) to a result together with the new state.
- The embedding follows `src/backend/src/services/*.py` statement by
  statement; SQL `UPDATE ... WHERE` becomes `List.map` guarded by the same
  condition, `SELECT ... LIMIT 1` becomes `List.find?`.
-/

set_option autoImplicit false

deriving instance DecidableEq for Except

namespace SmartParking

abbrev Time := Int

/-- `spaces.current_state` values. -/
inductive SpaceState where
  | free | occupied | reserved | maintenance | unknown
deriving DecidableEq, Repr

/-- `reservations.status` values. -/
inductive ResStatus where
  | active | completed | cancelled | expired | noShow
deriving DecidableEq, Repr

/-- A row of the `spaces` table (fields used by the services under study). -/
structure Space where
  id : Nat
  tenantId : Nat
  enabled : Bool
  currentState : SpaceState
  sensorState : SpaceState
  stateChangedAt : Time
deriving DecidableEq, Repr

/-- A row of the `reservations` table; `requestId` embeds
`metadata->>'request_id'`. -/
structure Reservation where
  id : Nat
  tenantId : Nat
  spaceId : Nat
  startTime : Time
  endTime : Time
  status : ResStatus
  requestId : Option String
  checkedIn : Bool
deriving DecidableEq, Repr

/-- Database state visible to `ReservationService`. -/
structure ResDB where
  reservations : List Reservation
  spaces : List Space
  nextId : Nat
deriving DecidableEq, Repr

/-- The overlap query of `ReservationService.check_availability`:
`status = 'active' AND start_time < $end AND end_time > $start`
scoped to the space and tenant. -/
def conflictsFor (db : ResDB) (tenant spaceId : Nat) (startTime endTime : Time) :
    List Reservation :=
  db.reservations.filter (fun r =>
    r.spaceId == spaceId && r.tenantId == tenant && r.status == .active &&
    decide (r.startTime < endTime) && decide (r.endTime > startTime))

/-- `ReservationService.check_availability`: availability flag plus the
conflicting reservations. -/
def check_availability (db : ResDB) (tenant spaceId : Nat)
    (startTime endTime : Time) : Bool × List Reservation :=
  let conflicts := conflictsFor db tenant spaceId startTime endTime
  (conflicts.isEmpty, conflicts)

/-- The idempotency lookup of `create_reservation`:
`WHERE tenant_id = $1 AND metadata->>'request_id' = $2`. -/
def idemHit (db : ResDB) (tenant : Nat) (requestId : Option String) :
    Option Reservation :=
  match requestId with
  | none => none
  | some k => db.reservations.find? (fun r =>
      r.tenantId == tenant && r.requestId == some k)

/-- The space lookup of `create_reservation`:
`WHERE id = $1 AND tenant_id = $2`. -/
def findSpace (db : ResDB) (tenant spaceId : Nat) : Option Space :=
  db.spaces.find? (fun s => s.id == spaceId && s.tenantId == tenant)

/-- Error outcomes of `create_reservation` (each `raise ValueError` branch). -/
inductive CreateErr where
  | invalidWindow
  | pastStart
  | spaceNotFound
  | spaceDisabled
  | conflict (conflicts : List Reservation)
deriving DecidableEq, Repr

/-- Successful outcome of `create_reservation`: the reservation id and the
`is_duplicate` flag of the returned dict. -/
structure CreateOk where
  resId : Nat
  isDuplicate : Bool
deriving DecidableEq, Repr

/-- The row inserted by `create_reservation` (`status='active'`,
`checked_in=false`, the request id recorded in metadata). -/
def mkReservation (id tenant spaceId : Nat) (startTime endTime : Time)
    (requestId : Option String) : Reservation :=
  { id := id, tenantId := tenant, spaceId := spaceId,
    startTime := startTime, endTime := endTime,
    status := .active, requestId := requestId, checkedIn := false }

/-- The conditional space update of `create_reservation`:
`SET current_state='reserved' WHERE id = $2 AND current_state NOT IN
('occupied','maintenance')`. -/
def reserveSpaceUpdate (spaces : List Space) (spaceId : Nat) (now : Time) :
    List Space :=
  spaces.map (fun s =>
    if s.id == spaceId &&
       !(s.currentState == .occupied || s.currentState == .maintenance) then
      { s with currentState := .reserved, stateChangedAt := now,
               sensorState := s.sensorState }
    else s)

/-- `ReservationService.create_reservation`. The checks appear in source
order: time-window validation, past-start validation, idempotency lookup,
space lookup, enabled check, overlap check, insert, then the 15-minute
(900 s) lookahead space update. -/
def create_reservation (db : ResDB) (tenant : Nat) (now : Time)
    (spaceId : Nat) (startTime endTime : Time) (requestId : Option String) :
    Except CreateErr CreateOk × ResDB :=
  if endTime ≤ startTime then (.error .invalidWindow, db)
  else if startTime < now then (.error .pastStart, db)
  else
    match idemHit db tenant requestId with
    | some existing => (.ok ⟨existing.id, true⟩, db)
    | none =>
      match findSpace db tenant spaceId with
      | none => (.error .spaceNotFound, db)
      | some sp =>
        if !sp.enabled then (.error .spaceDisabled, db)
        else
          let conflicts := conflictsFor db tenant spaceId startTime endTime
          if conflicts = [] then
            let newRes := mkReservation db.nextId tenant spaceId
                startTime endTime requestId
            let db1 : ResDB :=
              ⟨db.reservations ++ [newRes], db.spaces, db.nextId + 1⟩
            let db2 : ResDB :=
              if startTime ≤ now + 900 then
                { db1 with spaces := reserveSpaceUpdate db1.spaces spaceId now }
              else db1
            (.ok ⟨newRes.id, false⟩, db2)
          else (.error (.conflict conflicts), db)

/-- Error outcomes of `cancel_reservation`. -/
inductive CancelErr where
  | notFound
  | invalidStatus (st : ResStatus)
deriving DecidableEq, Repr

/-- `ReservationService.cancel_reservation`: find the reservation, require
`status='active'`, set it `cancelled`, then unconditionally
`UPDATE spaces SET current_state='free' WHERE id = $2 AND
current_state = 'reserved'`. -/
def cancel_reservation (db : ResDB) (tenant : Nat) (now : Time)
    (resId : Nat) : Except CancelErr Unit × ResDB :=
  match db.reservations.find? (fun r => r.id == resId && r.tenantId == tenant) with
  | none => (.error .notFound, db)
  | some r =>
    if r.status ≠ .active then (.error (.invalidStatus r.status), db)
    else
      let reservations := db.reservations.map (fun x =>
        if x.id == resId then { x with status := .cancelled } else x)
      let spaces := db.spaces.map (fun s =>
        if s.id == r.spaceId && s.currentState == .reserved then
          { s with currentState := .free, stateChangedAt := now }
        else s)
      (.ok (), ⟨reservations, spaces, db.nextId⟩)

/-- The per-row effect of the bulk expire update: `SET status='expired'
WHERE status='active' AND end_time < $1 AND checked_in = false`. -/
def expireReservation (now : Time) (r : Reservation) : Reservation :=
  if r.status == .active && decide (r.endTime < now) && !r.checkedIn then
    { r with status := .expired }
  else r

/-- The `EXISTS` subquery of the sweep's space update: an active reservation
with `start_time <= now AND end_time >= now` for this space. -/
def coversNow (now : Time) (rs : List Reservation) (spaceId : Nat) : Bool :=
  rs.any (fun r => r.spaceId == spaceId && r.status == .active &&
    decide (r.startTime ≤ now) && decide (r.endTime ≥ now))

/-- The per-row effect of the sweep's space update: `SET current_state='free'
WHERE current_state='reserved' AND NOT EXISTS (...)`. -/
def freeUncovered (now : Time) (rs : List Reservation) (s : Space) : Space :=
  if s.currentState == .reserved && !coversNow now rs s.id then
    { s with currentState := .free, stateChangedAt := now }
  else s

/-- `ReservationService.expire_old_reservations`: snapshot `now` once, bulk
expire ended active reservations (returning the count), then free every
`reserved` space with no active reservation covering `now`. The space
update sees the already-expired reservation rows, as the second SQL
statement does. -/
def expire_old_reservations (db : ResDB) (now : Time) : Nat × ResDB :=
  let rs := db.reservations.map (expireReservation now)
  let expiredCount := (db.reservations.filter (fun r =>
    r.status == .active && decide (r.endTime < now) && !r.checkedIn)).length
  let spaces := db.spaces.map (freeUncovered now rs)
  (expiredCount, ⟨rs, spaces, db.nextId⟩)

/-! ### Webhook ingestion (`WebhookService`) -/

/-- Python `str.upper()` restricted to its ASCII action (devEuis are hex
strings): each lowercase ASCII letter is shifted to its uppercase form. -/
def pyUpper (s : String) : String :=
  ⟨s.data.map (fun c => if 'a' ≤ c ∧ c ≤ 'z' then Char.ofNat (c.toNat - 32) else c)⟩

/-- One character of a hex digit, as accepted by Python `int(s, 16)`. -/
def hexChar (c : Char) : Option Nat :=
  if '0' ≤ c ∧ c ≤ '9' then some (c.toNat - '0'.toNat)
  else if 'a' ≤ c ∧ c ≤ 'f' then some (c.toNat - 'a'.toNat + 10)
  else if 'A' ≤ c ∧ c ≤ 'F' then some (c.toNat - 'A'.toNat + 10)
  else none

/-- Digit run of Python `int(s, 16)` after the first digit: hex digits with
single underscores allowed between digits. -/
def hexCore : List Char → Nat → Option Nat
  | [], acc => some acc
  | '_' :: c :: rest, acc =>
    match hexChar c with
    | some v => hexCore rest (acc * 16 + v)
    | none => none
  | ['_'], _ => none
  | c :: rest, acc =>
    match hexChar c with
    | some v => hexCore rest (acc * 16 + v)
    | none => none

/-- A nonempty hex-digit run (underscores only between digits). -/
def hexDigitsRun : List Char → Option Nat
  | [] => none
  | c :: rest =>
    match hexChar c with
    | some v => hexCore rest v
    | none => none

/-- After a `0x` prefix Python additionally allows one underscore before the
first digit (`int("0x_1", 16) = 1`). -/
def hexAfterBasePrefix : List Char → Option Nat
  | '_' :: rest => hexDigitsRun rest
  | cs => hexDigitsRun cs

/-- Whitespace stripped by Python `int()` around the literal. -/
def isPyWs (c : Char) : Bool :=
  c == ' ' || c == '\t' || c == '\n' || c == '\r' || c == '\x0b' || c == '\x0c'

/-- Magnitude part of Python `int(s, 16)`: optional `0x`/`0X` base marker then
hex digits. -/
def pyHexMagnitude : List Char → Option Nat
  | '0' :: x :: rest =>
    if x == 'x' || x == 'X' then hexAfterBasePrefix rest
    else hexDigitsRun ('0' :: x :: rest)
  | cs => hexDigitsRun cs

/-- Python `int(s, 16)`: strip surrounding whitespace, optional sign,
optional `0x` marker, then hex digits; `none` models `ValueError`. -/
def pyIntHex (s : String) : Option Int :=
  let cs := (s.toList.dropWhile isPyWs).reverse.dropWhile isPyWs |>.reverse
  match cs with
  | '+' :: rest => (pyHexMagnitude rest).map (fun m => (m : Int))
  | '-' :: rest => (pyHexMagnitude rest).map (fun m => -(m : Int))
  | rest => (pyHexMagnitude rest).map (fun m => (m : Int))

/-- `WebhookService._decode_sensor_data`: if the payload is nonempty, parse
its first two characters with Python `int(_, 16)` and report occupied when
that value is 1; any parse failure, or a payload shorter than 2 characters,
yields `false` (the `except: pass` / default-to-free path). -/
def decode_sensor_data (data : String) : Bool :=
  if data = "" then false
  else if 2 ≤ data.length then
    match pyIntHex (data.take 2) with
    | some v => v == 1
    | none => false
  else false

/-- A row of the append-only `sensor_readings` table (fields the services
read back). -/
structure SensorReading where
  devEui : String
  fcnt : Nat
  occupied : Bool
deriving DecidableEq, Repr

/-- A row of the `sensor_devices` table. -/
structure SensorDevice where
  id : Nat
  tenantId : Nat
  devEui : String
  assignedSpaceId : Option Nat
  lastSeenAt : Option Time
deriving DecidableEq, Repr

/-- A row of the `orphan_devices` ledger. -/
structure OrphanDevice where
  devEui : String
  messageCount : Nat
deriving DecidableEq, Repr

/-- The logical uplink payload: `deviceInfo.devEui`, `data`, `fCnt`. -/
structure UplinkPayload where
  devEui : String
  data : String
  fcnt : Nat
deriving DecidableEq, Repr

/-- Database state visible to `WebhookService`. `readings` is kept most
recent first, so its head is the `ORDER BY received_at DESC LIMIT 1` row;
`spool` is the file spool written on processing errors. -/
structure WebDB where
  readings : List SensorReading
  devices : List SensorDevice
  spaces : List Space
  orphans : List OrphanDevice
  spool : List UplinkPayload
deriving DecidableEq, Repr

/-- The most recent stored reading for a device — the device's last accepted
sequence counter lives in its `fcnt` field. -/
def latestReading (db : WebDB) (devEui : String) : Option SensorReading :=
  (db.readings.filter (fun r => r.devEui == devEui)).head?

/-- The device's last accepted sequence counter: the `fcnt` of its most
recent stored reading, looked up exactly as `deduplicate_by_fcnt` does
(which re-applies `.upper()` to its argument). -/
def lastAcceptedFcnt (db : WebDB) (devEui : String) : Option Nat :=
  (latestReading db (pyUpper devEui)).map SensorReading.fcnt

/-- `WebhookService.deduplicate_by_fcnt`: duplicate when the most recent
stored reading has `fcnt >= ` the incoming counter. -/
def deduplicate_by_fcnt (db : WebDB) (devEui : String) (fcnt : Nat) : Bool :=
  match latestReading db (pyUpper devEui) with
  | some existing => decide (fcnt ≤ existing.fcnt)
  | none => false

/-- `WebhookService.track_orphan_device`: upsert on `dev_eui`, incrementing
`message_count`. -/
def track_orphan_device (db : WebDB) (devEui : String) : WebDB :=
  if db.orphans.any (fun o => o.devEui == devEui) then
    { db with orphans := db.orphans.map (fun o =>
        if o.devEui == devEui then { o with messageCount := o.messageCount + 1 }
        else o) }
  else
    { db with orphans := db.orphans ++ [⟨devEui, 1⟩] }

/-- `WebhookService._store_sensor_reading`: append the reading (most recent
first) and stamp the device's `last_seen_at`. -/
def store_sensor_reading (db : WebDB) (deviceId : Nat) (devEui : String)
    (fcnt : Nat) (occupied : Bool) (now : Time) : WebDB :=
  { db with
    readings := ⟨devEui, fcnt, occupied⟩ :: db.readings,
    devices := db.devices.map (fun d =>
      if d.id == deviceId then { d with lastSeenAt := some now } else d) }

/-- `WebhookService._update_space_occupancy`: read the space's current state
(scoped by tenant); when it differs from the sensor-derived state, overwrite
`current_state` and `sensor_state` (the `UPDATE` is keyed by id only). -/
def update_space_occupancy (db : WebDB) (spaceId tenantId : Nat)
    (occupied : Bool) (now : Time) : WebDB :=
  let newState : SpaceState := if occupied then .occupied else .free
  match db.spaces.find? (fun s => s.id == spaceId && s.tenantId == tenantId) with
  | none => db
  | some current =>
    if current.currentState ≠ newState then
      { db with spaces := db.spaces.map (fun s =>
          if s.id == spaceId then
            { s with currentState := newState, sensorState := newState,
                     stateChangedAt := now }
          else s) }
    else db

/-- The `status` field of the uplink processing result. -/
inductive UplinkStatus where
  | processed | duplicate | orphan | unassigned
deriving DecidableEq, Repr

/-- Result of `process_uplink`: the status plus, on the stored paths, the
decoded occupancy. -/
structure UplinkResult where
  status : UplinkStatus
  occupied : Option Bool
deriving DecidableEq, Repr

/-- `WebhookService.process_uplink`: uppercase the devEui, reject a missing
one (the raised error spools the payload), short-circuit duplicates, track
orphans, else decode, store the reading, stamp the device, and update the
assigned space's occupancy. -/
def process_uplink (db : WebDB) (now : Time) (p : UplinkPayload) :
    Except String UplinkResult × WebDB :=
  let devEui := pyUpper p.devEui
  if devEui = "" then
    (.error "Missing devEui in payload", { db with spool := db.spool ++ [p] })
  else if deduplicate_by_fcnt db devEui p.fcnt then
    (.ok ⟨.duplicate, none⟩, db)
  else
    match db.devices.find? (fun d => d.devEui == devEui) with
    | none => (.ok ⟨.orphan, none⟩, track_orphan_device db devEui)
    | some device =>
      let occupied := decode_sensor_data p.data
      let db1 := store_sensor_reading db device.id devEui p.fcnt occupied now
      match device.assignedSpaceId with
      | some spaceId =>
        (.ok ⟨.processed, some occupied⟩,
         update_space_occupancy db1 spaceId device.tenantId occupied now)
      | none => (.ok ⟨.unassigned, some occupied⟩, db1)

/-! ### Downlink command queue (`DownlinkService`) -/

/-- `downlink_queue.status` values. -/
inductive CmdStatus where
  | queued | pending | sent | confirmedOk | failed
deriving DecidableEq, Repr

/-- A row of the `downlink_queue` table. -/
structure Command where
  id : Nat
  devEui : String
  priority : Nat
  createdAt : Time
  status : CmdStatus
  retryCount : Nat
  sentAt : Option Time
  lastError : Option String
deriving DecidableEq, Repr

/-- Database state visible to `DownlinkService`. -/
structure CmdDB where
  commands : List Command
deriving DecidableEq, Repr

/-- `b` strictly precedes `a` in `ORDER BY priority ASC, created_at ASC`. -/
def cmdStrictlyBefore (b a : Command) : Bool :=
  b.priority < a.priority ||
    (b.priority == a.priority && decide (b.createdAt < a.createdAt))

/-- The `ORDER BY priority ASC, created_at ASC LIMIT 1` selection over a
candidate list (first-listed row wins exact ties, as an arbitrary but fixed
tiebreak). -/
def selectNext : List Command → Option Command
  | [] => none
  | c :: rest =>
    match selectNext rest with
    | none => some c
    | some b => if cmdStrictlyBefore b c then some b else some c

/-- `DownlinkService.get_next_command`: pick the best `queued` command for
the device (by uppercased devEui), return it and mark it `pending` with a
`sent_at` stamp; `none` and no write when the queue is empty. -/
def get_next_command (db : CmdDB) (devEui : String) (now : Time) :
    Option Command × CmdDB :=
  let queued := db.commands.filter (fun c =>
    c.devEui == pyUpper devEui && c.status == .queued)
  match selectNext queued with
  | none => (none, db)
  | some c =>
    (some c,
     ⟨db.commands.map (fun x =>
        if x.id == c.id then { x with status := .pending, sentAt := some now }
        else x)⟩)

/-- `DownlinkService.mark_command_failed`: look the command up, increment
`retry_count`; if retry was requested and the incremented count is below
`max_retries = 3`, set it back to `queued`, else set terminal `failed`. -/
def mark_command_failed (db : CmdDB) (commandId : Nat) (error : String)
    (retry : Bool) : CmdDB :=
  match db.commands.find? (fun c => c.id == commandId) with
  | none => db
  | some c =>
    let retryCount := c.retryCount + 1
    let maxRetries := 3
    if retry && retryCount < maxRetries then
      ⟨db.commands.map (fun x =>
        if x.id == commandId then
          { x with status := .queued, retryCount := retryCount,
                   lastError := some error }
        else x)⟩
    else
      ⟨db.commands.map (fun x =>
        if x.id == commandId then
          { x with status := .failed, retryCount := retryCount,
                   lastError := some error }
        else x)⟩

/-! ### Helper lemmas -/

/-- `find?` over a list extended on the right finds the new element when the
prefix has no match. -/
theorem find?_append_singleton {α : Type} (p : α → Bool) (l : List α) (a : α)
    (h : l.find? p = none) (ha : p a = true) :
    (l ++ [a]).find? p = some a := by
  induction l with
  | nil => simp [List.find?, ha]
  | cons x xs ih =>
    by_cases hpx : p x = true
    · rw [List.find?_cons_of_pos _ hpx] at h
      exact absurd h (by simp)
    · rw [List.find?_cons_of_neg _ hpx] at h
      rw [List.cons_append, List.find?_cons_of_neg _ hpx]
      exact ih h

/-- Mapping twice with a function that is idempotent on the list's elements
equals mapping once. -/
theorem map_map_of_idem {α : Type} (f : α → α) (l : List α)
    (h : ∀ x, f (f x) = f x) : (l.map f).map f = l.map f := by
  rw [List.map_map]
  exact List.map_congr_left (fun a _ => h a)

/-! ### Claim theorems -/

/-- **C7**: with three commands of priorities `[5,1,5]` queued for one
device in creation order, `get_next_command` returns the priority-1 command
first, then the two priority-5 commands in their original creation order,
and a fourth call finds the queue drained. -/
theorem get_next_priority_order :
    (let c1 : Command := ⟨1, "D1", 5, 1, .queued, 0, none, none⟩
     let c2 : Command := ⟨2, "D1", 1, 2, .queued, 0, none, none⟩
     let c3 : Command := ⟨3, "D1", 5, 3, .queued, 0, none, none⟩
     let db0 : CmdDB := ⟨[c1, c2, c3]⟩
     let r1 := get_next_command db0 "D1" 100
     let r2 := get_next_command r1.2 "D1" 101
     let r3 := get_next_command r2.2 "D1" 102
     let r4 := get_next_command r3.2 "D1" 103
     r1.1.map Command.id = some 2 ∧ r2.1.map Command.id = some 1 ∧
     r3.1.map Command.id = some 3 ∧ r4.1 = none) := by
  decide

/-- **C10**: when a device has no `queued` command, `get_next_command`
returns `none` and leaves every command (status, timestamps) unchanged. -/
theorem get_next_none_when_no_queued (db : CmdDB) (devEui : String)
    (now : Time)
    (h : ∀ c ∈ db.commands, c.devEui = pyUpper devEui → c.status ≠ .queued) :
    get_next_command db devEui now = (none, db) := by
  unfold get_next_command
  have hfilter : db.commands.filter (fun c =>
      c.devEui == pyUpper devEui && c.status == CmdStatus.queued) = [] := by
    rw [List.filter_eq_nil_iff]
    intro c hc
    simp only [Bool.and_eq_true, beq_iff_eq, not_and]
    intro he hs
    exact h c hc he hs
  rw [hfilter]
  rfl

/-- Witness for C10: a device whose commands are all `pending`, `sent`,
`confirmed` or `failed` gets `none` and an unchanged queue. -/
theorem get_next_none_when_no_queued_witness :
    get_next_command
      ⟨[⟨1, "D1", 5, 1, .pending, 0, none, none⟩,
        ⟨2, "D1", 1, 2, .sent, 0, none, none⟩,
        ⟨3, "D1", 5, 3, .confirmedOk, 0, none, none⟩,
        ⟨4, "D1", 5, 4, .failed, 3, none, none⟩]⟩ "D1" 100
      = (none, ⟨[⟨1, "D1", 5, 1, .pending, 0, none, none⟩,
        ⟨2, "D1", 1, 2, .sent, 0, none, none⟩,
        ⟨3, "D1", 5, 3, .confirmedOk, 0, none, none⟩,
        ⟨4, "D1", 5, 4, .failed, 3, none, none⟩]⟩) :=
  get_next_none_when_no_queued _ "D1" 100 (by decide)

/-- **C4 counterexample**: a command stored at `retry_count = 2` that is
marked failed *with retry requested* is not re-queued: the incremented
count 3 fails the `retry_count < max_retries` test (3 < 3), so the command
goes terminally `failed` with `retry_count = 3`. -/
theorem mark_failed_at_two_counterexample :
    (mark_command_failed ⟨[⟨1, "D1", 5, 0, .pending, 2, none, none⟩]⟩
        1 "timeout" true).commands.map (fun c => (c.status, c.retryCount))
      = [(.failed, 3)] := by
  decide

/-- **C4 amended**: `mark_command_failed` with retry requested re-queues to
`queued` only while the incremented count is below `max_retries = 3`: a
command stored at `retry_count = 1` is re-queued with `retry_count = 2`,
while a command stored at `retry_count = 2` transitions directly to
terminal `failed` with `retry_count = 3`. -/
theorem mark_failed_retry_bound (db : CmdDB) (commandId : Nat) (err : String)
    (c : Command)
    (hf : db.commands.find? (fun x => x.id == commandId) = some c) :
    (c.retryCount = 1 →
      mark_command_failed db commandId err true =
        ⟨db.commands.map (fun x =>
          if x.id == commandId then
            { x with status := .queued, retryCount := 2,
                     lastError := some err }
          else x)⟩)
    ∧ (c.retryCount = 2 →
      mark_command_failed db commandId err true =
        ⟨db.commands.map (fun x =>
          if x.id == commandId then
            { x with status := .failed, retryCount := 3,
                     lastError := some err }
          else x)⟩) := by
  constructor
  · intro h1
    unfold mark_command_failed
    rw [hf]
    simp only [h1]
    rfl
  · intro h2
    unfold mark_command_failed
    rw [hf]
    simp only [h2]
    rfl

/-- Witness for the amended C4 at a concrete queue: the stored count is 2,
so the failure is terminal. -/
theorem mark_failed_retry_bound_witness :
    ((⟨[⟨1, "D1", 5, 0, .pending, 2, none, none⟩]⟩ : CmdDB).commands.find?
        (fun x => x.id == 1) = some ⟨1, "D1", 5, 0, .pending, 2, none, none⟩)
    ∧ (mark_command_failed ⟨[⟨1, "D1", 5, 0, .pending, 2, none, none⟩]⟩
          1 "timeout" true =
        ⟨[⟨1, "D1", 5, 0, .failed, 3, none, some "timeout"⟩]⟩) := by
  refine ⟨by decide, ?_⟩
  have h := (mark_failed_retry_bound
    ⟨[⟨1, "D1", 5, 0, .pending, 2, none, none⟩]⟩ 1 "timeout"
    ⟨1, "D1", 5, 0, .pending, 2, none, none⟩ (by decide)).2 rfl
  rw [h]
  decide

/-- **C6 counterexample**: reservations `[0,10)` and `[10,20)` on the same
space are both `active` (they do not overlap under the half-open check);
at `now = 10` the second one covers "now", yet cancelling the first sets
the space from `reserved` back to `free` — the code's space update has no
covering-reservation condition. -/
theorem cancel_reverts_despite_cover_counterexample :
    (let a : Reservation := ⟨1, 1, 1, 0, 10, .active, none, false⟩
     let b : Reservation := ⟨2, 1, 1, 10, 20, .active, none, false⟩
     let sp : Space := ⟨1, 1, true, .reserved, .unknown, 0⟩
     let db : ResDB := ⟨[a, b], [sp], 3⟩
     let out := cancel_reservation db 1 10 1
     (b.status = .active ∧ b.startTime ≤ 10 ∧ (10 : Time) < b.endTime) ∧
     out.1 = .ok () ∧
     out.2.reservations.map Reservation.status = [.cancelled, .active] ∧
     out.2.spaces.map Space.currentState = [.free]) := by
  decide

/-- **C6 amended**: cancelling an `active` reservation marks it `cancelled`
and reverts its space from `reserved` to `free` *unconditionally* — the
space update is `WHERE id = .. AND current_state = 'reserved'` with no
check for another active reservation covering the current time. -/
theorem cancel_active_unconditional_free (db : ResDB) (tenant : Nat)
    (now : Time) (resId : Nat) (r : Reservation)
    (hf : db.reservations.find? (fun x =>
        x.id == resId && x.tenantId == tenant) = some r)
    (ha : r.status = .active) :
    cancel_reservation db tenant now resId =
      (.ok (),
       ⟨db.reservations.map (fun x =>
          if x.id == resId then { x with status := .cancelled } else x),
        db.spaces.map (fun s =>
          if s.id == r.spaceId && s.currentState == .reserved then
            { s with currentState := .free, stateChangedAt := now }
          else s),
        db.nextId⟩) := by
  unfold cancel_reservation
  rw [hf]
  simp [ha]

/-- Witness for the amended C6: cancelling the `[0,10)` reservation at
`now = 10` while the `[10,20)` reservation is active. -/
theorem cancel_active_unconditional_free_witness :
    cancel_reservation
        ⟨[⟨1, 1, 1, 0, 10, .active, none, false⟩,
          ⟨2, 1, 1, 10, 20, .active, none, false⟩],
         [⟨1, 1, true, .reserved, .unknown, 0⟩], 3⟩ 1 10 1 =
      (.ok (),
       ⟨[⟨1, 1, 1, 0, 10, .cancelled, none, false⟩,
         ⟨2, 1, 1, 10, 20, .active, none, false⟩],
        [⟨1, 1, true, .free, .unknown, 10⟩], 3⟩) := by
  have h := cancel_active_unconditional_free
    ⟨[⟨1, 1, 1, 0, 10, .active, none, false⟩,
      ⟨2, 1, 1, 10, 20, .active, none, false⟩],
     [⟨1, 1, true, .reserved, .unknown, 0⟩], 3⟩ 1 10 1
    ⟨1, 1, 1, 0, 10, .active, none, false⟩ (by decide) rfl
  rw [h]
  decide

/-- **C5 counterexample**: a space in `maintenance` whose assigned sensor
reports occupied ends up `occupied` — `_update_space_occupancy` overwrites
any differing state, with no maintenance guard. -/
theorem sensor_maintenance_counterexample :
    (let sp : Space := ⟨1, 1, true, .maintenance, .unknown, 0⟩
     let device : SensorDevice := ⟨1, 1, "AA01", some 1, none⟩
     let db : WebDB := ⟨[], [device], [sp], [], []⟩
     let p : UplinkPayload := ⟨"AA01", "01", 7⟩
     let out := process_uplink db 50 p
     sp.currentState = .maintenance ∧
     out.1 = .ok ⟨.processed, some true⟩ ∧
     out.2.spaces.map Space.currentState = [.occupied]) := by
  decide

/-- **C5 amended**: sensor-sourced updates *do* override `maintenance`:
when the space lookup finds a space whose `current_state` is `maintenance`
and the decoded occupancy is occupied, `_update_space_occupancy` rewrites
every row with that space id to `occupied`. -/
theorem sensor_update_overrides_maintenance (db : WebDB)
    (spaceId tenantId : Nat) (now : Time) (sp : Space)
    (hf : db.spaces.find? (fun s =>
        s.id == spaceId && s.tenantId == tenantId) = some sp)
    (hm : sp.currentState = .maintenance) :
    ∀ s ∈ (update_space_occupancy db spaceId tenantId true now).spaces,
      s.id = spaceId → s.currentState = .occupied := by
  unfold update_space_occupancy
  simp only [hf, hm]
  intro s hs hid
  rcases List.mem_map.mp hs with ⟨pre, hpre, rfl⟩
  by_cases hp : pre.id = spaceId
  · simp [hp]
  · simp [hp] at hid

/-- Witness for the amended C5: the concrete maintenance space of the
counterexample ends `occupied` after the sensor update. -/
theorem sensor_update_overrides_maintenance_witness :
    (⟨1, 1, true, .occupied, .occupied, 50⟩ : Space) ∈
      (update_space_occupancy ⟨[], [⟨1, 1, "AA01", some 1, none⟩],
        [⟨1, 1, true, .maintenance, .unknown, 0⟩], [], []⟩ 1 1 true 50).spaces
    ∧ Space.currentState ⟨1, 1, true, .occupied, .occupied, 50⟩ = .occupied :=
  ⟨by decide,
   sensor_update_overrides_maintenance
    ⟨[], [⟨1, 1, "AA01", some 1, none⟩],
     [⟨1, 1, true, .maintenance, .unknown, 0⟩], [], []⟩ 1 1 50
    ⟨1, 1, true, .maintenance, .unknown, 0⟩ (by decide) rfl
    ⟨1, 1, true, .occupied, .occupied, 50⟩ (by decide) rfl⟩

/-- **C2**: an uplink whose counter is at most the device's last accepted
counter short-circuits as `duplicate`, returning the database completely
unchanged — no reading, space, device, orphan, or spool write. -/
theorem uplink_duplicate_no_writes (db : WebDB) (now : Time)
    (p : UplinkPayload) (f : Nat)
    (hne : pyUpper p.devEui ≠ "")
    (hlast : lastAcceptedFcnt db (pyUpper p.devEui) = some f)
    (hle : p.fcnt ≤ f) :
    process_uplink db now p = (.ok ⟨.duplicate, none⟩, db) := by
  have hdup : deduplicate_by_fcnt db (pyUpper p.devEui) p.fcnt = true := by
    unfold deduplicate_by_fcnt
    unfold lastAcceptedFcnt at hlast
    cases hl : latestReading db (pyUpper (pyUpper p.devEui)) with
    | none => rw [hl] at hlast; exact absurd hlast (by simp)
    | some ex =>
      rw [hl] at hlast
      simp only [Option.map_some'] at hlast
      have hex : ex.fcnt = f := by injection hlast
      simp [hex, hle]
  unfold process_uplink
  simp [hne, hdup]

/-- Witness for C2: replaying counter 5 against a device whose latest
stored reading already has counter 5 yields `duplicate` and no change. -/
theorem uplink_duplicate_no_writes_witness :
    process_uplink ⟨[⟨"AB", 5, true⟩], [], [], [], []⟩ 7 ⟨"ab", "01", 5⟩
      = (.ok ⟨.duplicate, none⟩, ⟨[⟨"AB", 5, true⟩], [], [], [], []⟩) :=
  uplink_duplicate_no_writes ⟨[⟨"AB", 5, true⟩], [], [], [], []⟩ 7
    ⟨"ab", "01", 5⟩ 5 (by decide) (by decide) (by decide)

/-- **C9**: the occupancy decoder is total and defaults to free — it
returns occupied exactly when the payload has at least two characters and
its first two characters parse (Python `int(_, 16)`) to the value 1; an
empty, too-short, or unparseable payload decodes to `false`. -/
theorem decode_occupancy_spec (d : String) :
    decode_sensor_data d = true ↔ 2 ≤ d.length ∧ pyIntHex (d.take 2) = some 1 := by
  unfold decode_sensor_data
  by_cases hd : d = ""
  · subst hd
    simp
  · rw [if_neg hd]
    by_cases hl : 2 ≤ d.length
    · rw [if_pos hl]
      cases hpx : pyIntHex (d.take 2) with
      | none => simp [hl]
      | some v => simp [hl]
    · rw [if_neg hl]
      simp [hl]

/-- **C8**: running the expire sweep twice at the same snapshot instant is
the same as running it once — the second pass expires zero reservations and
returns the state unchanged. -/
theorem expire_sweep_idempotent (db : ResDB) (now : Time) :
    expire_old_reservations (expire_old_reservations db now).2 now
      = (0, (expire_old_reservations db now).2) := by
  have hidem : ∀ r, expireReservation now (expireReservation now r)
      = expireReservation now r := by
    intro r
    unfold expireReservation
    by_cases h : (r.status == ResStatus.active && decide (r.endTime < now) &&
        !r.checkedIn) = true
    · rw [if_pos h]
      simp
    · rw [if_neg h, if_neg h]
  have hpredFalse : ∀ r ∈ db.reservations.map (expireReservation now),
      (r.status == ResStatus.active && decide (r.endTime < now) &&
        !r.checkedIn) = false := by
    intro r hr
    rcases List.mem_map.mp hr with ⟨pre, _, rfl⟩
    unfold expireReservation
    by_cases h : (pre.status == ResStatus.active && decide (pre.endTime < now) &&
        !pre.checkedIn) = true
    · rw [if_pos h]
      simp
    · rw [if_neg h]
      simpa using h
  have h1 : (db.reservations.map (expireReservation now)).map (expireReservation now)
      = db.reservations.map (expireReservation now) :=
    map_map_of_idem _ _ hidem
  have h2 : (db.reservations.map (expireReservation now)).filter (fun r =>
      r.status == ResStatus.active && decide (r.endTime < now) && !r.checkedIn)
      = [] := by
    rw [List.filter_eq_nil_iff]
    intro r hr
    simp [hpredFalse r hr]
  have hsidem : ∀ s, freeUncovered now (db.reservations.map (expireReservation now))
      (freeUncovered now (db.reservations.map (expireReservation now)) s)
      = freeUncovered now (db.reservations.map (expireReservation now)) s := by
    intro s
    unfold freeUncovered
    by_cases h : (s.currentState == SpaceState.reserved &&
        !coversNow now (db.reservations.map (expireReservation now)) s.id) = true
    · rw [if_pos h]
      simp
    · rw [if_neg h, if_neg h]
  have h4 : (db.spaces.map
        (freeUncovered now (db.reservations.map (expireReservation now)))).map
        (freeUncovered now (db.reservations.map (expireReservation now)))
      = db.spaces.map
        (freeUncovered now (db.reservations.map (expireReservation now))) :=
    map_map_of_idem _ _ hsidem
  simp only [expire_old_reservations, h1, h2, h4, List.length_nil]

/-- When validation, the idempotency lookup, the space lookup and the
overlap check all pass, `create_reservation` inserts the new row and
conditionally marks the space reserved (shared success-path lemma). -/
theorem create_success_eq (db : ResDB) (tenant : Nat) (now : Time)
    (spaceId : Nat) (s e : Time) (rid : Option String) (sp : Space)
    (hw : ¬ e ≤ s) (hp : ¬ s < now)
    (hi : idemHit db tenant rid = none)
    (hsp : findSpace db tenant spaceId = some sp)
    (hen : sp.enabled = true)
    (hc : conflictsFor db tenant spaceId s e = []) :
    create_reservation db tenant now spaceId s e rid =
      (.ok ⟨db.nextId, false⟩,
       if s ≤ now + 900 then
         ⟨db.reservations ++ [mkReservation db.nextId tenant spaceId s e rid],
          reserveSpaceUpdate db.spaces spaceId now, db.nextId + 1⟩
       else
         ⟨db.reservations ++ [mkReservation db.nextId tenant spaceId s e rid],
          db.spaces, db.nextId + 1⟩) := by
  simp only [create_reservation, hi, hsp, hen, hc, if_neg hw, if_neg hp,
    Bool.not_true, Bool.false_eq_true, if_false, if_pos rfl]
  by_cases h9 : s ≤ now + 900 <;> simp [h9, mkReservation]

/-- **C1**: with validation passing, no idempotency hit, and the space
present and enabled: when an existing `active` reservation overlaps the
half-open window (`existing.start < end` and `start < existing.end`), the
create fails with a ConflictError carrying the conflicting reservations and
inserts no row; when every overlapping reservation is `cancelled` or
`expired`, the same create succeeds and appends exactly the new row. -/
theorem create_overlap_conflict (db : ResDB) (tenant : Nat) (now : Time)
    (spaceId : Nat) (s e : Time) (rid : Option String) (sp : Space)
    (hw : ¬ e ≤ s) (hp : ¬ s < now)
    (hi : idemHit db tenant rid = none)
    (hsp : findSpace db tenant spaceId = some sp)
    (hen : sp.enabled = true) :
    (conflictsFor db tenant spaceId s e ≠ [] →
      create_reservation db tenant now spaceId s e rid
        = (.error (.conflict (conflictsFor db tenant spaceId s e)), db))
    ∧ ((∀ r ∈ db.reservations, r.spaceId = spaceId → r.tenantId = tenant →
          r.startTime < e → s < r.endTime →
          r.status = .cancelled ∨ r.status = .expired) →
      (create_reservation db tenant now spaceId s e rid).1
          = .ok ⟨db.nextId, false⟩
      ∧ (create_reservation db tenant now spaceId s e rid).2.reservations
          = db.reservations ++ [mkReservation db.nextId tenant spaceId s e rid]) := by
  constructor
  · intro hne
    simp only [create_reservation, hi, hsp, hen, if_neg hw, if_neg hp,
      Bool.not_true, Bool.false_eq_true, if_false, if_neg hne]
  · intro hterm
    have hc : conflictsFor db tenant spaceId s e = [] := by
      rw [conflictsFor, List.filter_eq_nil_iff]
      intro r hr hq
      simp only [Bool.and_eq_true, beq_iff_eq, decide_eq_true_eq] at hq
      obtain ⟨⟨⟨⟨hsid, htid⟩, hact⟩, hst⟩, hend⟩ := hq
      rcases hterm r hr hsid htid hst hend with h | h <;> rw [hact] at h <;>
        exact absurd h (by simp)
    rw [create_success_eq db tenant now spaceId s e rid sp hw hp hi hsp hen hc]
    refine ⟨rfl, ?_⟩
    by_cases h9 : s ≤ now + 900 <;> simp [h9]

/-- Witness for C1: a `[5,8)` request against an active `[0,10)`
reservation conflicts; the implication about a fully cancelled/expired
overlap set is instantiated at the same state. -/
theorem create_overlap_conflict_witness :
    (conflictsFor ⟨[⟨1, 1, 1, 0, 10, .active, none, false⟩],
        [⟨1, 1, true, .free, .unknown, 0⟩], 2⟩ 1 1 5 8 ≠ [] →
      create_reservation ⟨[⟨1, 1, 1, 0, 10, .active, none, false⟩],
          [⟨1, 1, true, .free, .unknown, 0⟩], 2⟩ 1 0 1 5 8 none
        = (.error (.conflict (conflictsFor
            ⟨[⟨1, 1, 1, 0, 10, .active, none, false⟩],
             [⟨1, 1, true, .free, .unknown, 0⟩], 2⟩ 1 1 5 8)),
           ⟨[⟨1, 1, 1, 0, 10, .active, none, false⟩],
            [⟨1, 1, true, .free, .unknown, 0⟩], 2⟩))
    ∧ ((∀ r ∈ (⟨[⟨1, 1, 1, 0, 10, .active, none, false⟩],
          [⟨1, 1, true, .free, .unknown, 0⟩], 2⟩ : ResDB).reservations,
          r.spaceId = 1 → r.tenantId = 1 → r.startTime < 8 → 5 < r.endTime →
          r.status = .cancelled ∨ r.status = .expired) →
      (create_reservation ⟨[⟨1, 1, 1, 0, 10, .active, none, false⟩],
          [⟨1, 1, true, .free, .unknown, 0⟩], 2⟩ 1 0 1 5 8 none).1
          = .ok ⟨2, false⟩
      ∧ (create_reservation ⟨[⟨1, 1, 1, 0, 10, .active, none, false⟩],
          [⟨1, 1, true, .free, .unknown, 0⟩], 2⟩ 1 0 1 5 8 none).2.reservations
          = [⟨1, 1, 1, 0, 10, .active, none, false⟩] ++
            [mkReservation 2 1 1 5 8 none]) :=
  create_overlap_conflict ⟨[⟨1, 1, 1, 0, 10, .active, none, false⟩],
      [⟨1, 1, true, .free, .unknown, 0⟩], 2⟩ 1 0 1 5 8 none
    ⟨1, 1, true, .free, .unknown, 0⟩
    (by decide) (by decide) rfl rfl rfl

/-- **C3**: two sequential `create` calls with the same tenant and the same
idempotency key return the same reservation id (`nextId`), the second is
flagged as the idempotent duplicate and performs no state change, and
exactly one row carrying that key is stored. -/
theorem create_idempotent_replay (db : ResDB) (tenant : Nat) (now : Time)
    (spaceId : Nat) (s e : Time) (k : String) (sp : Space)
    (hw : ¬ e ≤ s) (hp : ¬ s < now)
    (hi : idemHit db tenant (some k) = none)
    (hsp : findSpace db tenant spaceId = some sp)
    (hen : sp.enabled = true)
    (hc : conflictsFor db tenant spaceId s e = []) :
    (create_reservation db tenant now spaceId s e (some k)).1
        = .ok ⟨db.nextId, false⟩
    ∧ create_reservation (create_reservation db tenant now spaceId s e (some k)).2
        tenant now spaceId s e (some k)
        = (.ok ⟨db.nextId, true⟩,
           (create_reservation db tenant now spaceId s e (some k)).2)
    ∧ ((create_reservation db tenant now spaceId s e (some k)).2.reservations.filter
        (fun r => r.tenantId == tenant && r.requestId == some k)).length = 1 := by
  have h1 := create_success_eq db tenant now spaceId s e (some k) sp hw hp hi hsp hen hc
  have hfind : ∀ rs2 : ResDB,
      rs2.reservations = db.reservations ++ [mkReservation db.nextId tenant spaceId s e (some k)] →
      idemHit rs2 tenant (some k) = some (mkReservation db.nextId tenant spaceId s e (some k)) := by
    intro rs2 hrs
    unfold idemHit at hi ⊢
    rw [hrs]
    exact find?_append_singleton _ _ _ hi (by simp [mkReservation])
  have hres2 : (create_reservation db tenant now spaceId s e (some k)).2.reservations
      = db.reservations ++ [mkReservation db.nextId tenant spaceId s e (some k)] := by
    rw [h1]
    by_cases h9 : s ≤ now + 900 <;> simp [h9]
  refine ⟨by rw [h1], ?_, ?_⟩
  · have hih := hfind _ hres2
    generalize hgen : (create_reservation db tenant now spaceId s e (some k)).2 = st at hih ⊢
    simp only [create_reservation, hih, if_neg hw, if_neg hp]
    simp [mkReservation]
  · rw [hres2, List.filter_append]
    have hnil : db.reservations.filter (fun r =>
        r.tenantId == tenant && r.requestId == some k) = [] := by
      rw [List.filter_eq_nil_iff]
      intro r hr
      have hfind0 : db.reservations.find? (fun r =>
          r.tenantId == tenant && r.requestId == some k) = none := hi
      exact List.find?_eq_none.mp hfind0 r hr
    rw [hnil]
    simp [mkReservation]

/-- Witness for C3: replaying the same key `"req-1"` at a concrete state
returns id 0 both times, leaves the state of the first call untouched, and
stores exactly one row with the key. -/
theorem create_idempotent_replay_witness :
    (create_reservation ⟨[], [⟨1, 1, true, .free, .unknown, 0⟩], 0⟩
        1 0 1 1000 2000 (some "req-1")).1 = .ok ⟨0, false⟩
    ∧ create_reservation
        (create_reservation ⟨[], [⟨1, 1, true, .free, .unknown, 0⟩], 0⟩
          1 0 1 1000 2000 (some "req-1")).2 1 0 1 1000 2000 (some "req-1")
        = (.ok ⟨0, true⟩,
           (create_reservation ⟨[], [⟨1, 1, true, .free, .unknown, 0⟩], 0⟩
             1 0 1 1000 2000 (some "req-1")).2)
    ∧ ((create_reservation ⟨[], [⟨1, 1, true, .free, .unknown, 0⟩], 0⟩
          1 0 1 1000 2000 (some "req-1")).2.reservations.filter
        (fun r => r.tenantId == 1 && r.requestId == some "req-1")).length = 1 :=
  create_idempotent_replay ⟨[], [⟨1, 1, true, .free, .unknown, 0⟩], 0⟩
    1 0 1 1000 2000 "req-1" ⟨1, 1, true, .free, .unknown, 0⟩
    (by decide) (by decide) rfl rfl rfl rfl

end SmartParking
